import Mathlib

/-!
Verification of the daily sign-in subsystem
(`src/nonebot_plugin_farm/database/userSign.py`, class `CUserSignDB`).

The storage layer is embedded shallowly: the `userSignLog` table is a list of
rows in insertion order, the `userSignSummary` table a list with at most one
row per uid, and the external experience/points ledger two association lists.
Dates are the `YYYY-MM-DD` strings the source manipulates; `strptime` /
`timedelta(days=1)` / `strftime` become `parseDate` / `prevDay` / `formatDate`.
Randomness (`random.randint lo hi`) is a function argument `rng lo hi`
constrained by `validRng`.  The `createdAt` / `updatedAt` timestamp columns are
informational defaults set by the database and carry no logic, so they are not
modelled.
-/

namespace UserSign

/-- Gregorian leap-year test, matching Python's `datetime` calendar. -/
def isLeapYear (y : Nat) : Bool :=
  (y % 4 == 0 && y % 100 != 0) || y % 400 == 0

/-- Number of days in month `m` of year `y` (Gregorian calendar). -/
def daysInMonth (y m : Nat) : Nat :=
  if m = 2 then (if isLeapYear y then 29 else 28)
  else if m = 4 || m = 6 || m = 9 || m = 11 then 30 else 31

/-- Numeric value of a decimal digit character. -/
def digitVal (c : Char) : Nat := c.toNat - 48

/-- Embeds `datetime.strptime(s, "%Y-%m-%d")` on canonical zero-padded dates:
`none` models the `ValueError` the source's `except` block catches. -/
def parseDate (s : String) : Option (Nat × Nat × Nat) :=
  match s.data with
  | [y1, y2, y3, y4, c1, m1, m2, c2, d1, d2] =>
    if y1.isDigit && y2.isDigit && y3.isDigit && y4.isDigit &&
        m1.isDigit && m2.isDigit && d1.isDigit && d2.isDigit &&
        c1 == '-' && c2 == '-' then
      let y := ((digitVal y1 * 10 + digitVal y2) * 10 + digitVal y3) * 10 + digitVal y4
      let m := digitVal m1 * 10 + digitVal m2
      let d := digitVal d1 * 10 + digitVal d2
      if 1 ≤ m && m ≤ 12 && 1 ≤ d && d ≤ daysInMonth y m then some (y, m, d) else none
    else none
  | _ => none

/-- Embeds `- timedelta(days=1)` on a calendar date. -/
def prevDay : Nat × Nat × Nat → Nat × Nat × Nat
  | (y, m, d) =>
    if 1 < d then (y, m, d - 1)
    else if 1 < m then (y, m - 1, daysInMonth y (m - 1))
    else (y - 1, 12, 31)

/-- Zero-pad a number to two digits, as `strftime("%m")` / `strftime("%d")` do. -/
def pad2 (n : Nat) : String := if n < 10 then "0" ++ toString n else toString n

/-- Zero-pad a year to four digits, as `strftime("%Y")` does. -/
def pad4 (n : Nat) : String :=
  if n < 10 then "000" ++ toString n
  else if n < 100 then "00" ++ toString n
  else if n < 1000 then "0" ++ toString n
  else toString n

/-- Embeds `strftime("%Y-%m-%d")`. -/
def formatDate : Nat × Nat × Nat → String
  | (y, m, d) => pad4 y ++ "-" ++ pad2 m ++ "-" ++ pad2 d

/-- Lines 142-145 of the source: parse `signDate`, subtract one day, format.
`none` models the `ValueError` path. -/
def dateMinusOneDay (s : String) : Option String :=
  (parseDate s).map (fun t => formatDate (prevDay t))

/-- Python's `signDate[:7]`, the `YYYY-MM` month key (line 199). -/
def monthOf (s : String) : String := ⟨s.data.take 7⟩

/-- SQL `signDate LIKE '<monthStr>-%'` (line 86): the date starts with
`monthStr` followed by a dash. -/
def likeMonth (monthStr signDate : String) : Bool :=
  List.isPrefixOf (monthStr ++ "-").data signDate.data

/-- One row of the `userSignLog` table (one sign-in event). `isSupplement`
is the 0/1 TINYINT the source stores. -/
structure SignLogRow where
  uid : String
  signDate : String
  isSupplement : Nat
  exp : Nat
  point : Nat
deriving DecidableEq, Repr

/-- One row of the `userSignSummary` table (per-user cached state). -/
structure SignSummaryRow where
  uid : String
  totalSignDays : Nat
  currentMonth : String
  monthSignDays : Nat
  lastSignDate : Option String
  continuousDays : Nat
  supplementCount : Nat
deriving DecidableEq, Repr

/-- The storage state the sign-in subsystem reads and writes: the two tables
plus the external per-user experience and point balances. -/
structure SignState where
  log : List SignLogRow
  summary : List SignSummaryRow
  expLedger : List (String × Nat)
  pointLedger : List (String × Nat)
deriving DecidableEq, Repr

/-- The empty database. -/
def emptyState : SignState := ⟨[], [], [], []⟩

/-- The row predicate of `WHERE uid=? AND signDate=?`. -/
def rowMatches (uid signDate : String) (r : SignLogRow) : Bool :=
  decide (r.uid = uid ∧ r.signDate = signDate)

/-- Embeds `CUserSignDB.hasSigned` (lines 95-113) with a non-faulting query:
`SELECT 1 FROM userSignLog WHERE uid=? AND signDate=? LIMIT 1` is non-empty. -/
def hasSigned (st : SignState) (uid signDate : String) : Bool :=
  st.log.any (rowMatches uid signDate)

/-- Embeds lines 95-113 of the source including the `except` branch: when the
query raises (`queryFails = true`) the function returns `False`, exactly the
value returned for a user with no row. -/
def hasSignedOrFault (queryFails : Bool) (st : SignState) (uid signDate : String) : Bool :=
  if queryFails then false else hasSigned st uid signDate

/-- The read `SELECT * FROM userSignSummary WHERE uid=?` (lines 132-135). -/
def getSummary (st : SignState) (uid : String) : Option SignSummaryRow :=
  st.summary.find? (fun s => decide (s.uid = uid))

/-- Embeds `CUserSignDB.getUserSignRewardByDate` (lines 44-72): the stored
`(exp, point)` of the log row for `(uid, date)`, or `(0, 0)` when absent. -/
def getUserSignRewardByDate (st : SignState) (uid date : String) : Nat × Nat :=
  match st.log.find? (rowMatches uid date) with
  | some r => (r.exp, r.point)
  | none => (0, 0)

/-- Embeds `CUserSignDB.getUserSignCountByDate` (lines 74-93): count of the
user's log rows whose date falls in the given `YYYY-MM` month. -/
def getUserSignCountByDate (st : SignState) (uid monthStr : String) : Nat :=
  (st.log.filter (fun r => decide (r.uid = uid) && likeMonth monthStr r.signDate)).length

/-- A random source: `rng lo hi` stands for one call `random.randint(lo, hi)`.
`validRng` is the contract of `random.randint`: the draw lies in `[lo, hi]`. -/
def validRng (rng : Nat → Nat → Nat) : Prop :=
  ∀ lo hi : Nat, lo ≤ hi → lo ≤ rng lo hi ∧ rng lo hi ≤ hi

/-- Lines 137-149 of `sign`: the streak length this sign-in reaches.
`1` unless a summary row exists, the event is not a supplement, and the stored
`lastSignDate` is exactly the credited date minus one day; `none` models the
`ValueError` `strptime` would raise on an unparsable `signDate`. -/
def computeStreak (summaryRow : Option SignSummaryRow) (isSupplement : Bool)
    (signDate : String) : Option Nat :=
  match summaryRow, isSupplement with
  | some s, false =>
    match dateMinusOneDay signDate with
    | some prevDate =>
      some (if s.lastSignDate = some prevDate then s.continuousDays + 1 else 1)
    | none => none
  | _, _ => some 1

/-- Lines 151-188 of `sign`: base reward, conditional streak bonus, and the
supplement halving.  `int(x * 0.5)` on a nonnegative int is exact in Python
(multiplying by 0.5 is exact and `int` truncates), hence `/ 2` on `Nat`. -/
def computeReward (rng : Nat → Nat → Nat) (ccd : Nat) (isSupplement : Bool) :
    Nat × Nat :=
  let base_exp := rng 5 50
  let base_point := rng 200 2000
  let extra :=
    if 1 < ccd ∧ isSupplement = false then
      let days_factor := min ccd 30
      (rng ((days_factor - 1) * 8) ((days_factor - 1) * 11),
       rng ((days_factor - 1) * 500) ((days_factor - 1) * 1000))
    else (0, 0)
  let final_exp := base_exp + extra.1
  let final_point := base_point + extra.2
  if isSupplement then (final_exp / 2, final_point / 2)
  else (final_exp, final_point)

/-- Embeds `g_pDBService.user.getUserExpByUid` / `getUserPointByUid`.
Modelled from the spec: the LedgerAccessor's `getBalances` (§6) — the user
table is not under `src/`; an absent user reads as balance 0. -/
def getBalance (l : List (String × Nat)) (uid : String) : Nat :=
  match l.find? (fun e => decide (e.1 = uid)) with
  | some e => e.2
  | none => 0

/-- Embeds `g_pDBService.user.updateUserExpByUid` / `updateUserPointByUid`.
Modelled from the spec: the LedgerAccessor's balance write (§6) — stores the
new balance for the user, creating the entry if absent. -/
def setBalance (l : List (String × Nat)) (uid : String) (v : Nat) :
    List (String × Nat) :=
  if (l.find? (fun e => decide (e.1 = uid))).isSome then
    l.map (fun e => if e.1 = uid then (uid, v) else e)
  else l ++ [(uid, v)]

/-- Lines 190-246 of `sign`: the write transaction.  Inserts the log row,
upserts the summary row (`UPDATE` when `summary_row` was read, `INSERT`
otherwise), and increments the two ledger balances.  All values are the ones
computed from the pre-transaction reads, exactly as in the source. -/
def applyWrites (st : SignState) (uid signDate : String)
    (summaryRow : Option SignSummaryRow) (isSupplement : Bool) (ccd : Nat)
    (reward : Nat × Nat) : SignState :=
  let currentMonth := monthOf signDate
  let newLogRow : SignLogRow :=
    ⟨uid, signDate, if isSupplement then 1 else 0, reward.1, reward.2⟩
  let newSummaryRow : SignSummaryRow :=
    match summaryRow with
    | some s =>
      ⟨uid, s.totalSignDays + 1, currentMonth,
        if s.currentMonth = currentMonth then s.monthSignDays + 1 else 1,
        some signDate, ccd,
        if isSupplement then s.supplementCount + 1 else s.supplementCount⟩
    | none =>
      ⟨uid, 1, currentMonth, 1, some signDate, 1,
        if isSupplement then 1 else 0⟩
  let newSummary :=
    match summaryRow with
    | some _ => st.summary.map (fun s => if s.uid = uid then newSummaryRow else s)
    | none => st.summary ++ [newSummaryRow]
  ⟨st.log ++ [newLogRow], newSummary,
    setBalance st.expLedger uid (getBalance st.expLedger uid + reward.1),
    setBalance st.pointLedger uid (getBalance st.pointLedger uid + reward.2)⟩

/-- Lines 126-128 of `sign`: the event is a supplement iff the credited date
differs from today's date (the source's `0 if signDate == todayStr else 1`). -/
def isSupplementB (todayStr signDate : String) : Bool :=
  if signDate = todayStr then false else true

/-- Lines 123-252 of `sign`, after the empty-date default has been resolved.
Returns the source's int code (`2` already signed, `1` success, `0` failure)
together with the storage state after the call.

`ledgerOk = false` injects a fault in the ledger-increment step inside the
write transaction.  Modelled from the spec: `CSqlManager._transaction` is not
under `src/`; per §4.3 step 6 any exception during the transaction aborts it,
leaving storage unchanged, and the outer `except` returns `0`. -/
def signResolved (ledgerOk : Bool) (rng : Nat → Nat → Nat) (todayStr : String)
    (st : SignState) (uid : String) (signDate : String) : Nat × SignState :=
  if hasSigned st uid signDate then (2, st)
  else
    let isSupplement : Bool := isSupplementB todayStr signDate
    let summaryRow := getSummary st uid
    match computeStreak summaryRow isSupplement signDate with
    | none => (0, st)
    | some ccd =>
      if ledgerOk then
        (1, applyWrites st uid signDate summaryRow isSupplement ccd
              (computeReward rng ccd isSupplement))
      else (0, st)

/-- Embeds `CUserSignDB.sign` (lines 115-252), parameterised by the ledger
fault flag.  `todayStr` is the caller's current date (the source's
`date().today().strftime("%Y-%m-%d")`); an empty `signDate0` defaults to it
(lines 120-121). -/
def signGen (ledgerOk : Bool) (rng : Nat → Nat → Nat) (todayStr : String)
    (st : SignState) (uid : String) (signDate0 : String) : Nat × SignState :=
  signResolved ledgerOk rng todayStr st uid
    (if signDate0 = "" then todayStr else signDate0)

/-- The source's `CUserSignDB.sign` with a non-faulting storage backend. -/
def sign (rng : Nat → Nat → Nat) (todayStr : String) (st : SignState)
    (uid : String) (signDate0 : String) : Nat × SignState :=
  signGen true rng todayStr st uid signDate0

/-- A sequence of `sign` calls for one user, executed left to right. -/
def signSeq (rng : Nat → Nat → Nat) (todayStr : String) (uid : String) :
    List String → SignState → SignState
  | [], st => st
  | d :: ds, st => signSeq rng todayStr uid ds (sign rng todayStr st uid d).2

/-- The deterministic random source that always draws the lower bound. -/
def rngLo : Nat → Nat → Nat := fun lo _ => lo

/-- The deterministic random source that always draws the upper bound. -/
def rngHi : Nat → Nat → Nat := fun _ hi => hi

/-! ### Specification-level views of the state

`logFor` is the user's slice of the log in insertion order; `monthsFor` the
months of those rows; `trailingRun` the length of the longest suffix of a list
whose elements all equal the last element. -/

/-- The rows `SELECT * FROM userSignLog WHERE uid=?` in insertion order. -/
def logFor (st : SignState) (uid : String) : List SignLogRow :=
  st.log.filter (fun r => decide (r.uid = uid))

/-- The `YYYY-MM` months of the user's log rows, in insertion order. -/
def monthsFor (st : SignState) (uid : String) : List String :=
  (logFor st uid).map (fun r => monthOf r.signDate)

/-- Length of the longest prefix all equal to the first element. -/
def headRun : List String → Nat
  | [] => 0
  | m :: ms => (ms.takeWhile (fun x => decide (x = m))).length + 1

/-- Length of the longest suffix all equal to the last element. -/
def trailingRun (l : List String) : Nat := headRun l.reverse

/-- The consistency the `userSignSummary` cache actually maintains: no row
while the user has no log rows; otherwise `totalSignDays` counts the user's
log rows, `currentMonth` is the month of the user's last log row, and
`monthSignDays` is the length of the trailing run of rows in that month. -/
def summaryInv (st : SignState) (uid : String) : Prop :=
  match getSummary st uid with
  | none => logFor st uid = []
  | some s =>
      s.totalSignDays = (logFor st uid).length ∧
      (monthsFor st uid).getLast? = some s.currentMonth ∧
      s.monthSignDays = trailingRun (monthsFor st uid)

theorem trailingRun_concat (l : List String) (m : String) :
    trailingRun (l ++ [m]) =
      (match l.getLast? with
        | some m0 => if m0 = m then trailingRun l + 1 else 1
        | none => 1) := by
  unfold trailingRun
  rw [List.reverse_concat]
  rw [← List.head?_reverse l]
  cases hrev : l.reverse with
  | nil => simp [headRun]
  | cons m0 rest =>
    by_cases hm : m0 = m
    · subst hm
      simp [headRun, List.takeWhile_cons]
    · simp [headRun, List.takeWhile_cons, hm, Ne.symm hm]

theorem trailingRun_singleton (m : String) : trailingRun [m] = 1 := rfl

/-! ### Shape lemmas for one `sign` call -/

theorem signResolved_already (ok : Bool) (rng : Nat → Nat → Nat)
    (today : String) (st : SignState) (uid d : String)
    (h : hasSigned st uid d = true) :
    signResolved ok rng today st uid d = (2, st) := by
  simp [signResolved, h]

theorem signResolved_parseFail (ok : Bool) (rng : Nat → Nat → Nat)
    (today : String) (st : SignState) (uid d : String)
    (h1 : hasSigned st uid d = false)
    (h2 : computeStreak (getSummary st uid) (isSupplementB today d) d = none) :
    signResolved ok rng today st uid d = (0, st) := by
  simp [signResolved, h1, h2]

theorem signResolved_success (rng : Nat → Nat → Nat)
    (today : String) (st : SignState) (uid d : String) (ccd : Nat)
    (h1 : hasSigned st uid d = false)
    (h2 : computeStreak (getSummary st uid) (isSupplementB today d) d = some ccd) :
    signResolved true rng today st uid d =
      (1, applyWrites st uid d (getSummary st uid) (isSupplementB today d) ccd
            (computeReward rng ccd (isSupplementB today d))) := by
  simp [signResolved, h1, h2]

theorem signResolved_fault (rng : Nat → Nat → Nat)
    (today : String) (st : SignState) (uid d : String)
    (h1 : hasSigned st uid d = false) :
    signResolved false rng today st uid d = (0, st) := by
  simp only [signResolved, h1, Bool.false_eq_true, if_false]
  cases computeStreak (getSummary st uid) (isSupplementB today d) d <;> simp

/-! ### Components of the write transaction -/

theorem applyWrites_log (st : SignState) (uid d : String)
    (sr : Option SignSummaryRow) (isSupp : Bool) (ccd : Nat) (rew : Nat × Nat) :
    (applyWrites st uid d sr isSupp ccd rew).log =
      st.log ++ [⟨uid, d, if isSupp then 1 else 0, rew.1, rew.2⟩] := by
  cases sr <;> rfl

theorem logFor_applyWrites (st : SignState) (uid d : String)
    (sr : Option SignSummaryRow) (isSupp : Bool) (ccd : Nat) (rew : Nat × Nat) :
    logFor (applyWrites st uid d sr isSupp ccd rew) uid =
      logFor st uid ++ [⟨uid, d, if isSupp then 1 else 0, rew.1, rew.2⟩] := by
  unfold logFor
  rw [applyWrites_log, List.filter_append]
  simp

theorem monthsFor_applyWrites (st : SignState) (uid d : String)
    (sr : Option SignSummaryRow) (isSupp : Bool) (ccd : Nat) (rew : Nat × Nat) :
    monthsFor (applyWrites st uid d sr isSupp ccd rew) uid =
      monthsFor st uid ++ [monthOf d] := by
  unfold monthsFor
  rw [logFor_applyWrites, List.map_append]
  rfl

theorem find?_map_replace (l : List SignSummaryRow) (uid : String)
    (row s : SignSummaryRow) (hrow : row.uid = uid)
    (h : l.find? (fun t => decide (t.uid = uid)) = some s) :
    (l.map (fun t => if t.uid = uid then row else t)).find?
        (fun t => decide (t.uid = uid)) = some row := by
  induction l with
  | nil => simp at h
  | cons a l ih =>
    by_cases ha : a.uid = uid
    · simp [ha, hrow]
    · rw [List.find?_cons_of_neg _ (by simp [ha])] at h
      simpa [ha, List.find?_cons_of_neg] using ih h

theorem getSummary_applyWrites_some (st : SignState) (uid d : String)
    (s : SignSummaryRow) (isSupp : Bool) (ccd : Nat) (rew : Nat × Nat)
    (h : getSummary st uid = some s) :
    getSummary (applyWrites st uid d (some s) isSupp ccd rew) uid =
      some ⟨uid, s.totalSignDays + 1, monthOf d,
        if s.currentMonth = monthOf d then s.monthSignDays + 1 else 1,
        some d, ccd,
        if isSupp then s.supplementCount + 1 else s.supplementCount⟩ := by
  unfold getSummary at h ⊢
  exact find?_map_replace st.summary uid _ s rfl h

theorem getSummary_applyWrites_none (st : SignState) (uid d : String)
    (isSupp : Bool) (ccd : Nat) (rew : Nat × Nat)
    (h : getSummary st uid = none) :
    getSummary (applyWrites st uid d none isSupp ccd rew) uid =
      some ⟨uid, 1, monthOf d, 1, some d, 1, if isSupp then 1 else 0⟩ := by
  unfold getSummary at h ⊢
  show (st.summary ++ [_]).find? _ = _
  rw [List.find?_append, h]
  simp

/-! ### Preservation of the summary invariant -/

theorem summaryInv_applyWrites (st : SignState) (uid d : String)
    (isSupp : Bool) (ccd : Nat) (rew : Nat × Nat)
    (h : summaryInv st uid) :
    summaryInv (applyWrites st uid d (getSummary st uid) isSupp ccd rew) uid := by
  unfold summaryInv at h ⊢
  cases hs : getSummary st uid with
  | none =>
    rw [hs] at h
    rw [getSummary_applyWrites_none st uid d isSupp ccd rew hs]
    have hm : monthsFor st uid = [] := by
      unfold monthsFor; rw [h]; rfl
    refine ⟨?_, ?_, ?_⟩
    · simp [logFor_applyWrites, h]
    · simp [monthsFor_applyWrites, hm]
    · simp [monthsFor_applyWrites, hm, trailingRun_singleton]
  | some s =>
    rw [hs] at h
    obtain ⟨h1, h2, h3⟩ := h
    rw [getSummary_applyWrites_some st uid d s isSupp ccd rew hs]
    refine ⟨?_, ?_, ?_⟩
    · simp [logFor_applyWrites, List.length_append, h1]
    · simp [monthsFor_applyWrites, List.getLast?_concat]
    · rw [monthsFor_applyWrites, trailingRun_concat, h2]
      by_cases hm : s.currentMonth = monthOf d
      · simp [hm, h3]
      · simp [hm]

theorem summaryInv_signResolved (ok : Bool) (rng : Nat → Nat → Nat)
    (today : String) (st : SignState) (uid d : String)
    (h : summaryInv st uid) :
    summaryInv (signResolved ok rng today st uid d).2 uid := by
  cases h1 : hasSigned st uid d with
  | true => rw [signResolved_already ok rng today st uid d h1]; exact h
  | false =>
    cases ok with
    | false => rw [signResolved_fault rng today st uid d h1]; exact h
    | true =>
      cases h2 : computeStreak (getSummary st uid) (isSupplementB today d) d with
      | none => rw [signResolved_parseFail true rng today st uid d h1 h2]; exact h
      | some ccd =>
        rw [signResolved_success rng today st uid d ccd h1 h2]
        exact summaryInv_applyWrites st uid d _ ccd _ h

theorem summaryInv_signSeq (rng : Nat → Nat → Nat) (today uid : String)
    (ds : List String) (st : SignState) (h : summaryInv st uid) :
    summaryInv (signSeq rng today uid ds st) uid := by
  induction ds generalizing st with
  | nil => exact h
  | cons d ds ih =>
    exact ih _ (summaryInv_signResolved true rng today st uid _ h)

theorem summaryInv_emptyState (uid : String) : summaryInv emptyState uid := by
  unfold summaryInv
  rfl

/-! ### Further helper lemmas -/

theorem hasSigned_applyWrites (st : SignState) (uid d : String)
    (sr : Option SignSummaryRow) (isSupp : Bool) (ccd : Nat) (rew : Nat × Nat) :
    hasSigned (applyWrites st uid d sr isSupp ccd rew) uid d = true := by
  unfold hasSigned
  rw [applyWrites_log, List.any_append]
  simp [rowMatches]

theorem find?_log_eq_none (st : SignState) (uid d : String)
    (h : hasSigned st uid d = false) :
    st.log.find? (rowMatches uid d) = none := by
  unfold hasSigned at h
  exact List.find?_eq_none.2 (List.any_eq_false.1 h)

theorem getReward_applyWrites (st : SignState) (uid d : String)
    (sr : Option SignSummaryRow) (isSupp : Bool) (ccd : Nat) (rew : Nat × Nat)
    (h : hasSigned st uid d = false) :
    getUserSignRewardByDate (applyWrites st uid d sr isSupp ccd rew) uid d = rew := by
  unfold getUserSignRewardByDate
  rw [applyWrites_log, List.find?_append, find?_log_eq_none st uid d h]
  simp [rowMatches]

theorem sign_code_cases (rng : Nat → Nat → Nat) (today : String)
    (st : SignState) (uid d : String) :
    (sign rng today st uid d).1 = 0 ∨ (sign rng today st uid d).1 = 1 ∨
      (sign rng today st uid d).1 = 2 := by
  unfold sign signGen
  cases h1 : hasSigned st uid (if d = "" then today else d) with
  | true => rw [signResolved_already _ rng today st uid _ h1]; right; right; rfl
  | false =>
    cases h2 : computeStreak (getSummary st uid)
        (isSupplementB today (if d = "" then today else d))
        (if d = "" then today else d) with
    | none => rw [signResolved_parseFail _ rng today st uid _ h1 h2]; left; rfl
    | some c => rw [signResolved_success rng today st uid _ c h1 h2]; right; left; rfl

/-! ### Claim C1 -/

/-- C1, counterexample: after the successful sequence `2025-05-10` (today),
supplement `2025-04-20`, supplement `2025-05-01`, the stored `currentMonth` is
`2025-05` and `monthSignDays = 1`, but the user has 2 `userSignLog` rows in
`2025-05` — refuting `monthSignDays == count(SignLog rows in currentMonth)`. -/
theorem C1_counterexample :
    (getSummary (signSeq rngLo "2025-05-10" "u"
        ["2025-05-10", "2025-04-20", "2025-05-01"] emptyState) "u").map
      (fun s => (s.currentMonth, s.monthSignDays)) = some ("2025-05", 1) ∧
    getUserSignCountByDate (signSeq rngLo "2025-05-10" "u"
        ["2025-05-10", "2025-04-20", "2025-05-01"] emptyState) "u" "2025-05" = 2 := by
  exact ⟨by decide, by decide⟩

/-- C1 (amended): after any sequence of `sign` calls for a user starting from
an empty database, the summary row satisfies `totalSignDays = count of the
user's SignLog rows`, `currentMonth = month of the user's last row`, and
`monthSignDays = length of the trailing run of the user's rows whose month
equals the month of the last row` (which can be smaller than the number of
rows in `currentMonth`). -/
theorem C1_summary_consistency (rng : Nat → Nat → Nat) (today uid : String)
    (ds : List String) :
    summaryInv (signSeq rng today uid ds emptyState) uid :=
  summaryInv_signSeq rng today uid ds emptyState (summaryInv_emptyState uid)

/-! ### Claim C3 -/

/-- C3: the streak used for the reward is `1` when there is no summary row or
the event is a supplement; otherwise it is `continuousDays + 1` exactly when
the stored `lastSignDate` equals the credited date minus one day, else `1`. -/
theorem C3_streak_rule (s : SignSummaryRow) (isSupp : Bool) (d : String) :
    computeStreak none isSupp d = some 1 ∧
    computeStreak (some s) true d = some 1 ∧
    (∀ p : String, dateMinusOneDay d = some p →
      computeStreak (some s) false d =
        some (if s.lastSignDate = some p then s.continuousDays + 1 else 1)) := by
  refine ⟨?_, rfl, ?_⟩
  · cases isSupp <;> rfl
  · intro p hp
    simp [computeStreak, hp]

/-- C3 witness: a user whose `lastSignDate` is `2025-05-01` signing
`2025-05-02` reaches streak `4 + 1 = 5`. -/
theorem C3_streak_rule_witness :
    computeStreak (some ⟨"u", 3, "2025-05", 3, some "2025-05-01", 4, 0⟩)
      false "2025-05-02" = some 5 := by
  have h := (C3_streak_rule ⟨"u", 3, "2025-05", 3, some "2025-05-01", 4, 0⟩
    false "2025-05-02").2.2 "2025-05-01" (by decide)
  exact h.trans (by decide)

/-! ### Claim C10 -/

/-- C10: when the storage query inside `hasSigned` raises, the function
returns `False` — the same value it returns for a user who has never signed
(here: any query against the empty database) — so a storage fault is
indistinguishable from "not signed" at this interface. -/
theorem C10_hasSigned_fault_reads_false (st : SignState) (uid d : String) :
    hasSignedOrFault true st uid d = false ∧
    hasSignedOrFault false emptyState uid d = false :=
  ⟨rfl, rfl⟩

/-! ### Claim C2 -/

/-- C2: for any `randint` respecting its bounds contract, the reward is a base
`exp ∈ [5,50]`, `point ∈ [200,2000]`; with no bonus for streak ≤ 1; with a
bonus drawn from `[8(d-1), 11(d-1)]` × `[500(d-1), 1000(d-1)]`, `d = min(streak, 30)`,
for a non-supplement streak > 1; and a supplement grants exactly
`(⌊base exp / 2⌋, ⌊base point / 2⌋)` with no bonus. -/
theorem C2_reward_bounds (rng : Nat → Nat → Nat) (hrng : validRng rng)
    (ccd : Nat) (isSupp : Bool) :
    ∃ be bp : Nat,
      5 ≤ be ∧ be ≤ 50 ∧ 200 ≤ bp ∧ bp ≤ 2000 ∧
      (isSupp = true → computeReward rng ccd isSupp = (be / 2, bp / 2)) ∧
      (isSupp = false → ccd ≤ 1 → computeReward rng ccd isSupp = (be, bp)) ∧
      (isSupp = false → 1 < ccd →
        ∃ ee ep : Nat,
          (min ccd 30 - 1) * 8 ≤ ee ∧ ee ≤ (min ccd 30 - 1) * 11 ∧
          (min ccd 30 - 1) * 500 ≤ ep ∧ ep ≤ (min ccd 30 - 1) * 1000 ∧
          computeReward rng ccd isSupp = (be + ee, bp + ep)) := by
  obtain ⟨hbe1, hbe2⟩ := hrng 5 50 (by norm_num)
  obtain ⟨hbp1, hbp2⟩ := hrng 200 2000 (by norm_num)
  refine ⟨rng 5 50, rng 200 2000, hbe1, hbe2, hbp1, hbp2, ?_, ?_, ?_⟩
  · rintro rfl
    have hc : ¬(1 < ccd ∧ (true : Bool) = false) := by simp
    simp [computeReward, hc]
  · rintro rfl hle
    have hlt : ¬1 < ccd := Nat.not_lt.2 hle
    simp [computeReward, hlt]
  · rintro rfl hlt
    have hc : (1 < ccd ∧ (false : Bool) = false) := ⟨hlt, rfl⟩
    obtain ⟨he1, he2⟩ := hrng ((min ccd 30 - 1) * 8) ((min ccd 30 - 1) * 11)
      (Nat.mul_le_mul_left _ (by norm_num))
    obtain ⟨hp1, hp2⟩ := hrng ((min ccd 30 - 1) * 500) ((min ccd 30 - 1) * 1000)
      (Nat.mul_le_mul_left _ (by norm_num))
    exact ⟨_, _, he1, he2, hp1, hp2, by simp [computeReward, hc]⟩

/-- C2 witness: with the lower-bound random source, a non-supplement streak of
3 satisfies the reward decomposition. -/
theorem C2_reward_bounds_witness :
    ∃ be bp : Nat,
      5 ≤ be ∧ be ≤ 50 ∧ 200 ≤ bp ∧ bp ≤ 2000 ∧
      ((false : Bool) = true → computeReward rngLo 3 false = (be / 2, bp / 2)) ∧
      ((false : Bool) = false → 3 ≤ 1 → computeReward rngLo 3 false = (be, bp)) ∧
      ((false : Bool) = false → 1 < 3 →
        ∃ ee ep : Nat,
          (min 3 30 - 1) * 8 ≤ ee ∧ ee ≤ (min 3 30 - 1) * 11 ∧
          (min 3 30 - 1) * 500 ≤ ep ∧ ep ≤ (min 3 30 - 1) * 1000 ∧
          computeReward rngLo 3 false = (be + ee, bp + ep)) :=
  C2_reward_bounds rngLo (fun lo _hi h => ⟨Nat.le_refl lo, h⟩) 3 false

/-! ### Claim C4 -/

/-- C4, counterexample: `u` signs `2025-05-01` and `2025-05-02` on their days
(streak 2), then supplements `2025-04-20`; the supplement call succeeds and
`continuousDays` drops from 2 to 1 — the supplement did **not** leave
`continuousDays` unchanged. -/
theorem C4_counterexample :
    (getSummary (sign rngLo "2025-05-02"
        (sign rngLo "2025-05-01" emptyState "u" "2025-05-01").2
        "u" "2025-05-02").2 "u").map (fun s => s.continuousDays) = some 2 ∧
    (sign rngLo "2025-05-02"
        (sign rngLo "2025-05-02"
          (sign rngLo "2025-05-01" emptyState "u" "2025-05-01").2
          "u" "2025-05-02").2 "u" "2025-04-20").1 = 1 ∧
    (getSummary (sign rngLo "2025-05-02"
        (sign rngLo "2025-05-02"
          (sign rngLo "2025-05-01" emptyState "u" "2025-05-01").2
          "u" "2025-05-02").2 "u" "2025-04-20").2 "u").map
      (fun s => s.continuousDays) = some 1 := by
  exact ⟨by decide, by decide, by decide⟩

/-- C4 (amended): a successful supplement sign-in by a user with an existing
summary row **resets** `continuousDays` to 1 (rather than leaving it
unchanged), while updating `lastSignDate` to the credited date and
incrementing `supplementCount`. -/
theorem C4_supplement_resets_streak (rng : Nat → Nat → Nat)
    (today : String) (st : SignState) (uid d : String) (s : SignSummaryRow)
    (hs : getSummary st uid = some s) (h0 : d ≠ "") (h1 : d ≠ today)
    (h2 : hasSigned st uid d = false) :
    (sign rng today st uid d).1 = 1 ∧
    getSummary (sign rng today st uid d).2 uid =
      some ⟨uid, s.totalSignDays + 1, monthOf d,
        if s.currentMonth = monthOf d then s.monthSignDays + 1 else 1,
        some d, 1, s.supplementCount + 1⟩ := by
  have hres : sign rng today st uid d = signResolved true rng today st uid d := by
    unfold sign signGen
    rw [if_neg h0]
  have hsupp : isSupplementB today d = true := by
    unfold isSupplementB
    rw [if_neg h1]
  have hstreak : computeStreak (getSummary st uid) (isSupplementB today d) d =
      some 1 := by
    rw [hsupp, hs]
    rfl
  rw [hres, signResolved_success rng today st uid d 1 h2 hstreak]
  refine ⟨rfl, ?_⟩
  rw [hs, getSummary_applyWrites_some st uid d s (isSupplementB today d) 1 _ hs,
    hsupp]
  simp

/-- C4 witness: after a first-day sign-in, supplementing an earlier date
yields the reset summary row. -/
theorem C4_supplement_resets_streak_witness :
    (sign rngLo "2025-05-01"
        (sign rngLo "2025-05-01" emptyState "u" "2025-05-01").2
        "u" "2025-04-20").1 = 1 ∧
    getSummary (sign rngLo "2025-05-01"
        (sign rngLo "2025-05-01" emptyState "u" "2025-05-01").2
        "u" "2025-04-20").2 "u" =
      some ⟨"u", 2, "2025-04", 1, some "2025-04-20", 1, 1⟩ := by
  have h := C4_supplement_resets_streak rngLo "2025-05-01"
    (sign rngLo "2025-05-01" emptyState "u" "2025-05-01").2
    "u" "2025-04-20" ⟨"u", 1, "2025-05", 1, some "2025-05-01", 1, 0⟩
    (by decide) (by decide) (by decide) (by decide)
  exact ⟨h.1, h.2.trans (by decide)⟩

/-! ### Claim C5 -/

/-- C5: if the first `sign` call for `(user, date)` can go through (no
existing row, and the streak computation does not raise), it returns Success
and the immediate second call with the same arguments returns AlreadySigned
while leaving the storage state exactly as after the first call. -/
theorem C5_sign_idempotent (rng : Nat → Nat → Nat) (today : String)
    (st : SignState) (uid d : String)
    (h1 : hasSigned st uid (if d = "" then today else d) = false)
    (h2 : computeStreak (getSummary st uid)
      (isSupplementB today (if d = "" then today else d))
      (if d = "" then today else d) ≠ none) :
    (sign rng today st uid d).1 = 1 ∧
    sign rng today (sign rng today st uid d).2 uid d =
      (2, (sign rng today st uid d).2) := by
  cases hc : computeStreak (getSummary st uid)
      (isSupplementB today (if d = "" then today else d))
      (if d = "" then today else d) with
  | none => exact absurd hc h2
  | some c =>
    have hfirst : sign rng today st uid d =
        (1, applyWrites st uid (if d = "" then today else d) (getSummary st uid)
          (isSupplementB today (if d = "" then today else d)) c
          (computeReward rng c
            (isSupplementB today (if d = "" then today else d)))) := by
      unfold sign signGen
      exact signResolved_success rng today st uid _ c h1 hc
    refine ⟨by rw [hfirst], ?_⟩
    rw [hfirst]
    unfold sign signGen
    exact signResolved_already true rng today _ uid _ (hasSigned_applyWrites _ _ _ _ _ _ _)

/-- C5 witness: a fresh user signing today twice gets Success then
AlreadySigned with unchanged state. -/
theorem C5_sign_idempotent_witness :
    (sign rngLo "2025-05-10" emptyState "u" "2025-05-10").1 = 1 ∧
    sign rngLo "2025-05-10"
        (sign rngLo "2025-05-10" emptyState "u" "2025-05-10").2 "u" "2025-05-10" =
      (2, (sign rngLo "2025-05-10" emptyState "u" "2025-05-10").2) :=
  C5_sign_idempotent rngLo "2025-05-10" emptyState "u" "2025-05-10"
    (by decide) (by decide)

/-! ### Claim C6 -/

/-- C6: if the ledger-increment step inside the write transaction fails, the
call returns Failure (`0`) and the storage state is exactly the state before
the call — no log row, no summary change, no balance change persists. -/
theorem C6_ledger_fault_atomic (rng : Nat → Nat → Nat) (today : String)
    (st : SignState) (uid d : String)
    (h : hasSigned st uid (if d = "" then today else d) = false) :
    signGen false rng today st uid d = (0, st) := by
  unfold signGen
  exact signResolved_fault rng today st uid _ h

/-- C6 witness: a faulted ledger write during a fresh sign-in leaves the empty
database untouched and reports Failure. -/
theorem C6_ledger_fault_atomic_witness :
    signGen false rngLo "2025-05-10" emptyState "u" "2025-05-10" =
      (0, emptyState) :=
  C6_ledger_fault_atomic rngLo "2025-05-10" emptyState "u" "2025-05-10"
    (by decide)

/-! ### Claim C7 -/

/-- C7, counterexample: two successful fresh sign-ins that grant different
rewards (lower-bound vs upper-bound draws) return the **same** result value
(`1`), so the caller cannot read the granted `(exp, point)` from the result —
`sign` returns a bare int code, and Success does not carry the reward. -/
theorem C7_counterexample :
    (sign rngLo "2025-05-10" emptyState "u" "2025-05-10").1 =
      (sign rngHi "2025-05-10" emptyState "u" "2025-05-10").1 ∧
    getUserSignRewardByDate
        (sign rngLo "2025-05-10" emptyState "u" "2025-05-10").2 "u" "2025-05-10" ≠
      getUserSignRewardByDate
        (sign rngHi "2025-05-10" emptyState "u" "2025-05-10").2 "u" "2025-05-10" := by
  exact ⟨by decide, by decide⟩

/-- C7 (amended): `sign` returns an int code with three cases — `2` when the
log row exists, `1` on success, `0` on failure; the return value carries no
reward: on success the exact granted `(exp, point)` pair is recorded in the
inserted `userSignLog` row, where `getUserSignRewardByDate` reads it. -/
theorem C7_result_codes (rng : Nat → Nat → Nat) (today : String)
    (st : SignState) (uid d : String) (c : Nat)
    (h0 : d ≠ "") (h1 : hasSigned st uid d = false)
    (h2 : computeStreak (getSummary st uid) (isSupplementB today d) d = some c) :
    (sign rng today st uid d).1 = 1 ∧
    getUserSignRewardByDate (sign rng today st uid d).2 uid d =
      computeReward rng c (isSupplementB today d) ∧
    (∀ st2 : SignState, (sign rng today st2 uid d).1 = 0 ∨
      (sign rng today st2 uid d).1 = 1 ∨ (sign rng today st2 uid d).1 = 2) := by
  have hres : sign rng today st uid d = signResolved true rng today st uid d := by
    unfold sign signGen
    rw [if_neg h0]
  rw [hres, signResolved_success rng today st uid d c h1 h2]
  exact ⟨rfl, getReward_applyWrites st uid d _ _ c _ h1,
    fun st2 => sign_code_cases rng today st2 uid d⟩

/-- C7 witness: on a fresh database the granted reward is read back from the
log row, not from the returned code. -/
theorem C7_result_codes_witness :
    (sign rngLo "2025-05-10" emptyState "u" "2025-05-10").1 = 1 ∧
    getUserSignRewardByDate
        (sign rngLo "2025-05-10" emptyState "u" "2025-05-10").2 "u" "2025-05-10" =
      computeReward rngLo 1 (isSupplementB "2025-05-10" "2025-05-10") ∧
    (∀ st2 : SignState, (sign rngLo "2025-05-10" st2 "u" "2025-05-10").1 = 0 ∨
      (sign rngLo "2025-05-10" st2 "u" "2025-05-10").1 = 1 ∨
      (sign rngLo "2025-05-10" st2 "u" "2025-05-10").1 = 2) :=
  C7_result_codes rngLo "2025-05-10" emptyState "u" "2025-05-10" 1
    (by decide) (by decide) (by decide)

/-! ### Claim C8 -/

/-- C8, counterexample: the malformed date `"not-a-date"` is **not** rejected:
the call reads storage, is treated as a supplement (the date differs from
today), succeeds with code `1`, and writes a log row carrying the malformed
date — there is no `ValidationFailure` outcome and no pre-storage rejection. -/
theorem C8_counterexample :
    (sign rngLo "2025-05-10" emptyState "u" "not-a-date").1 = 1 ∧
    (sign rngLo "2025-05-10" emptyState "u" "not-a-date").2.log =
      [⟨"u", "not-a-date", 1, 2, 100⟩] := by
  exact ⟨by decide, by decide⟩

/-- C8 (amended): `sign` performs no date validation: any non-empty date
string different from today — well-formed or not — is processed as a
supplement after the storage idempotency check, succeeds, and is inserted
verbatim into `userSignLog` with the halved base reward. -/
theorem C8_no_date_validation (rng : Nat → Nat → Nat) (today : String)
    (st : SignState) (uid d : String)
    (h0 : d ≠ "") (h1 : d ≠ today) (h2 : hasSigned st uid d = false) :
    (sign rng today st uid d).1 = 1 ∧
    (sign rng today st uid d).2.log =
      st.log ++ [⟨uid, d, 1, (computeReward rng 1 true).1,
        (computeReward rng 1 true).2⟩] := by
  have hres : sign rng today st uid d = signResolved true rng today st uid d := by
    unfold sign signGen
    rw [if_neg h0]
  have hsupp : isSupplementB today d = true := by
    unfold isSupplementB
    rw [if_neg h1]
  have hstreak : computeStreak (getSummary st uid) (isSupplementB today d) d =
      some 1 := by
    rw [hsupp]
    cases getSummary st uid <;> rfl
  rw [hres, signResolved_success rng today st uid d 1 h2 hstreak]
  refine ⟨rfl, ?_⟩
  rw [applyWrites_log, hsupp]
  simp

/-- C8 witness: an unparsable date is accepted and logged verbatim. -/
theorem C8_no_date_validation_witness :
    (sign rngLo "2025-05-10" emptyState "u" "banana").1 = 1 ∧
    (sign rngLo "2025-05-10" emptyState "u" "banana").2.log =
      emptyState.log ++ [⟨"u", "banana", 1, (computeReward rngLo 1 true).1,
        (computeReward rngLo 1 true).2⟩] :=
  C8_no_date_validation rngLo "2025-05-10" emptyState "u" "banana"
    (by decide) (by decide) (by decide)

end UserSign
